import Mathlib

/-!
Verification development for the daily-sales-report script (`main.py`).

The script has two pure data-processing functions, `read_sales_csv` and
`calculate_statistics`, which are embedded here shallowly:

* a Python CSV row (a `dict` produced by `csv.DictReader`) is an association
  list `Row` from column name to string value, in column order; dict lookup
  `row[k]` raises `KeyError` when the key is absent, modelled by `getItem`;
* Python numbers are embedded as `ℚ` (for `float(...)` values) and `ℤ`
  (for `int(...)` values), with exact arithmetic; the decimal subset of
  Python's `float`/`int` literals is what `parseFloat`/`parseInt` accept
  (exponents, `inf` and `nan` never occur in this data and are not modelled);
* a Python `dict` used as an accumulator keeps insertion order: new keys are
  appended at the end, existing keys are updated in place (`addToGroup`);
* exceptions are values of `PyErr`; each function's `try/except` boundary
  converts them to an error string, modelled by the result types
  `ReadResult` and `StatsResult` (the JSON serialization layer is dropped:
  the structured payload itself is the result);
* file I/O is abstracted: a readable file is `some f` for a parsed
  `CSVFile` (header plus data records, each record assumed to have one
  field per header column, which is how the data files of this repository
  look), an unreadable path is `none`.
-/

/-- A parsed CSV data row: association list from column name to value,
as produced by `csv.DictReader` (keys in header order). -/
abbrev Row := List (String × String)

/-- Python dict lookup `row.get(k)`: first binding of `k`, if any. -/
def Row.get (r : Row) (k : String) : Option String :=
  (r.find? (fun p => p.1 == k)).map Prod.snd

/-- Exceptions that the statistics code can raise. -/
inductive PyErr where
  | keyError (k : String)
  | valueError (msg : String)
  | zeroDivisionError
  deriving Repr, DecidableEq

/-- The string `str(e)` of an exception, as interpolated into the
`"Failed to ..."` messages by the two `except` blocks. -/
def pyErrStr : PyErr → String
  | .keyError k => "'" ++ k ++ "'"
  | .valueError m => m
  | .zeroDivisionError => "float division by zero"

/-- Rational addition, written through the smart constructor `mkRat` so that
the kernel can evaluate it on closed terms (`Rat.add` itself is
`@[irreducible]`); `qAdd_eq` identifies it with `+`. -/
def qAdd (a b : ℚ) : ℚ :=
  mkRat (a.num * b.den + b.num * a.den) (a.den * b.den)

/-- Multiplication of a rational by a natural, kernel-evaluable;
`qMulNat_eq` identifies it with `a * n`. -/
def qMulNat (a : ℚ) (n : ℕ) : ℚ :=
  mkRat (a.num * n) a.den

/-- Division of a rational by a natural, kernel-evaluable;
`qDivNat_eq` identifies it with `a / n` for `n ≠ 0`. -/
def qDivNat (a : ℚ) (n : ℕ) : ℚ :=
  mkRat a.num (a.den * n)

/-- Subtraction of an integer from a rational, kernel-evaluable. -/
def qSubInt (a : ℚ) (n : ℤ) : ℚ :=
  mkRat (a.num - n * a.den) a.den

/-- Absolute value of a rational, kernel-evaluable. -/
def qAbs (a : ℚ) : ℚ :=
  if a < 0 then -a else a

/-- Floor of a rational: Euclidean division of numerator by (positive)
denominator, kernel-evaluable. -/
def qFloor (a : ℚ) : ℤ :=
  Int.ediv a.num a.den

/-- Value of a decimal digit character. -/
def digitVal (c : Char) : Nat := c.toNat - 48

/-- Reads a run of decimal digits left to right, `none` on a non-digit. -/
def digitsVal (cs : List Char) : Option Nat :=
  cs.foldl
    (fun acc c =>
      match acc with
      | none => none
      | some n => if c.isDigit then some (n * 10 + digitVal c) else none)
    (some 0)

/-- Strips one optional leading sign, returning the sign as `true` for
negative together with the remaining characters. -/
def stripSign : List Char → Bool × List Char
  | '-' :: cs => (true, cs)
  | '+' :: cs => (false, cs)
  | cs => (false, cs)

/-- The decimal subset of Python's `float(s)`: optional sign, digits with an
optional decimal point, at least one digit overall; the value of
`i.f` is `(i * 10 ^ |f| + f) / 10 ^ |f|`. -/
def parseFloat (s : String) : Option ℚ :=
  let (neg, cs) := stripSign s.data
  let intPart := cs.takeWhile (fun c => c ≠ '.')
  let rest := cs.dropWhile (fun c => c ≠ '.')
  let body : Option ℚ :=
    match rest with
    | [] =>
        if intPart.isEmpty then none
        else (digitsVal intPart).map (fun n => mkRat n 1)
    | _ :: fracPart =>
        if intPart.isEmpty && fracPart.isEmpty then none
        else
          match digitsVal intPart, digitsVal fracPart with
          | some n, some m =>
              some (mkRat (n * 10 ^ fracPart.length + m) (10 ^ fracPart.length))
          | _, _ => none
  body.map (fun q => if neg then -q else q)

/-- Python's `int(s)`: optional sign, nonempty run of digits. -/
def parseInt (s : String) : Option ℤ :=
  let (neg, cs) := stripSign s.data
  if cs.isEmpty then none
  else (digitsVal cs).map (fun n => if neg then -(n : ℤ) else (n : ℤ))

/-- Dict access `row[k]`: `KeyError` when the column is absent. -/
def getItem (r : Row) (k : String) : Except PyErr String :=
  match Row.get r k with
  | some v => .ok v
  | none => .error (.keyError k)

/-- Checked `float(s)`: `ValueError` when the string is not numeric. -/
def pyFloat (s : String) : Except PyErr ℚ :=
  match parseFloat s with
  | some q => .ok q
  | none => .error (.valueError ("could not convert string to float: '" ++ s ++ "'"))

/-- Checked `int(s)`: `ValueError` when the string is not an integer. -/
def pyInt (s : String) : Except PyErr ℤ :=
  match parseInt s with
  | some n => .ok n
  | none => .error (.valueError ("invalid literal for int() with base 10: '" ++ s ++ "'"))

/-- Division `a / n` of a float by `len(rows)`: `ZeroDivisionError` when
`n = 0`. -/
def pyDiv (a : ℚ) (n : Nat) : Except PyErr ℚ :=
  if n = 0 then .error .zeroDivisionError else .ok (qDivNat a n)

/-- The generator sum `sum(float(row['Revenue']) for row in rows)`, evaluated
left to right from an accumulator, stopping at the first exception. -/
def sumFloatsFrom (rows : List Row) (acc : ℚ) : Except PyErr ℚ :=
  match rows with
  | [] => .ok acc
  | r :: rest =>
    match getItem r "Revenue" with
    | .error e => .error e
    | .ok s =>
      match pyFloat s with
      | .error e => .error e
      | .ok v => sumFloatsFrom rest (qAdd acc v)

/-- The generator sum `sum(int(row['Units_Sold']) for row in rows)`. -/
def sumIntsFrom (rows : List Row) (acc : ℤ) : Except PyErr ℤ :=
  match rows with
  | [] => .ok acc
  | r :: rest =>
    match getItem r "Units_Sold" with
    | .error e => .error e
    | .ok s =>
      match pyInt s with
      | .error e => .error e
      | .ok v => sumIntsFrom rest (acc + v)

/-- The dict update `m[k] = m.get(k, 0) + v`: accumulate in place for an
existing key, append a new key at the end (Python dicts keep insertion
order). -/
def addToGroup (m : List (String × ℚ)) (k : String) (v : ℚ) : List (String × ℚ) :=
  match m with
  | [] => [(k, v)]
  | (k', v') :: rest =>
    if k' = k then (k', qAdd v' v) :: rest else (k', v') :: addToGroup rest k v

/-- One grouping loop of `calculate_statistics`: for each row, read the
group key (`row[gkey]`), then `float(row['Revenue'])`, and accumulate. -/
def groupFrom (gkey : String) (rows : List Row) (m : List (String × ℚ)) :
    Except PyErr (List (String × ℚ)) :=
  match rows with
  | [] => .ok m
  | r :: rest =>
    match getItem r gkey with
    | .error e => .error e
    | .ok g =>
      match getItem r "Revenue" with
      | .error e => .error e
      | .ok s =>
        match pyFloat s with
        | .error e => .error e
        | .ok v => groupFrom gkey rest (addToGroup m g v)

/-- The comparison step of `max(items, key=lambda x: x[1])`: keep the
current best unless the challenger is strictly greater. -/
def pySel (a b : String × ℚ) : String × ℚ :=
  if a.2 < b.2 then b else a

/-- Folding `pySel` from an initial best over the remaining items:
the body of Python's `max` on a nonempty sequence. -/
def pyMaxFold (a : String × ℚ) (l : List (String × ℚ)) : String × ℚ :=
  l.foldl pySel a

/-- `max(items, key=lambda x: x[1])`: `ValueError` on an empty sequence,
otherwise the first item with the maximal value. -/
def pyMax (l : List (String × ℚ)) : Except PyErr (String × ℚ) :=
  match l with
  | [] => .error (.valueError "max() arg is an empty sequence")
  | x :: xs => .ok (pyMaxFold x xs)

/-- Stable descending insertion by value: an element is placed before the
first strictly smaller value, after earlier elements with ties. -/
def insertDesc (x : String × ℚ) : List (String × ℚ) → List (String × ℚ)
  | [] => [x]
  | y :: ys => if y.2 ≤ x.2 then x :: y :: ys else y :: insertDesc x ys

/-- `sorted(items, key=lambda x: x[1], reverse=True)`: a stable sort,
descending by value, ties in original (insertion) order. -/
def sortDesc : List (String × ℚ) → List (String × ℚ)
  | [] => []
  | x :: xs => insertDesc x (sortDesc xs)

/-- Groups a reversed digit string into threes:
used to re-create the thousands separators of `format(x, ',.2f')`. -/
def group3 : List Char → List Char
  | a :: b :: c :: d :: rest => a :: b :: c :: ',' :: group3 (d :: rest)
  | l => l

/-- Inserts thousands separators into a digit string. -/
def addCommas (s : String) : String :=
  ⟨(group3 s.data.reverse).reverse⟩

/-- Rounds a rational to the nearest integer, halves to even
(the rounding used when formatting with two decimals). -/
def roundHalfEven (x : ℚ) : ℤ :=
  let n := qFloor x
  let r := qSubInt x n
  if r < mkRat 1 2 then n
  else if mkRat 1 2 < r then n + 1
  else if n % 2 = 0 then n else n + 1

/-- Two-digit zero-padded rendering of a cents remainder. -/
def pad2 (n : Nat) : String :=
  if n < 10 then "0" ++ toString n else toString n

/-- Python's `f"{v:,.2f}"`: sign, thousands-separated integer part, a dot,
and exactly two decimals. -/
def fmtFloat2 (v : ℚ) : String :=
  let c := (roundHalfEven (qMulNat (qAbs v) 100)).toNat
  (if v < 0 then "-" else "") ++ addCommas (toString (c / 100)) ++ "." ++ pad2 (c % 100)

/-- A `"$"`-prefixed monetary rendering, `f"${v:,.2f}"`. -/
def fmtUSD (v : ℚ) : String :=
  "$" ++ fmtFloat2 v

/-- The formatted entry of a breakdown dict comprehension
`{k: f"${v:,.2f}" for k, v in ...}`. -/
def fmtPair (p : String × ℚ) : String × String :=
  (p.1, fmtUSD p.2)

/-- The success payload of `calculate_statistics`: the `stats` dict.
`top_region`/`top_product`/`top_salesperson` are `(name, revenue)` pairs,
breakdowns keep their (sorted) dict order as lists of
`(key, formatted revenue)`. -/
structure Stats where
  total_revenue : String
  total_units_sold : ℤ
  average_revenue_per_transaction : String
  number_of_transactions : Nat
  top_region : String × String
  top_product : String × String
  top_salesperson : String × String
  region_breakdown : List (String × String)
  product_breakdown : List (String × String)
  salesperson_breakdown : List (String × String)
  deriving Repr, DecidableEq

/-- Assembles the `stats` dict from the computed pieces (the last,
non-failing part of the `try` block). -/
def mkStatsRecord (total : ℚ) (units : ℤ) (n : Nat) (avg : ℚ)
    (tR tP tS : String × ℚ) (gR gP gS : List (String × ℚ)) : Stats :=
  { total_revenue := fmtUSD total
  , total_units_sold := units
  , average_revenue_per_transaction := fmtUSD avg
  , number_of_transactions := n
  , top_region := (tR.1, fmtUSD tR.2)
  , top_product := (tP.1, fmtUSD tP.2)
  , top_salesperson := (tS.1, fmtUSD tS.2)
  , region_breakdown := (sortDesc gR).map fmtPair
  , product_breakdown := (sortDesc gP).map fmtPair
  , salesperson_breakdown := (sortDesc gS).map fmtPair }

/-- The body of `calculate_statistics`'s `try` block on an in-memory
dataset, with each fallible step in the source's evaluation order:
totals, the three groupings, the three `max` calls, then the average
(whose division is evaluated while building the `stats` dict literal). -/
def calcStats (rows : List Row) : Except PyErr Stats :=
  match sumFloatsFrom rows 0 with
  | .error e => .error e
  | .ok total =>
  match sumIntsFrom rows 0 with
  | .error e => .error e
  | .ok units =>
  match groupFrom "Region" rows [] with
  | .error e => .error e
  | .ok gR =>
  match groupFrom "Product" rows [] with
  | .error e => .error e
  | .ok gP =>
  match groupFrom "Salesperson" rows [] with
  | .error e => .error e
  | .ok gS =>
  match pyMax gR with
  | .error e => .error e
  | .ok tR =>
  match pyMax gP with
  | .error e => .error e
  | .ok tP =>
  match pyMax gS with
  | .error e => .error e
  | .ok tS =>
  match pyDiv total rows.length with
  | .error e => .error e
  | .ok avg => .ok (mkStatsRecord total units rows.length avg tR tP tS gR gP gS)

/-- Result of `calculate_statistics` after its `except` boundary: either
the structured stats payload or an error value with a message. -/
inductive StatsResult where
  | ok (s : Stats)
  | error (msg : String)
  deriving Repr, DecidableEq

/-- The `try/except` boundary of `calculate_statistics` on a dataset:
any exception becomes `{"error": f"Failed to calculate statistics: {e}"}`. -/
def calcStatsResult (rows : List Row) : StatsResult :=
  match calcStats rows with
  | .ok s => .ok s
  | .error e => .error ("Failed to calculate statistics: " ++ pyErrStr e)

/-- A parsed CSV file: the header line and the data records
(one list of field values per line, one value per header column). -/
structure CSVFile where
  header : List String
  records : List (List String)

/-- `list(csv.DictReader(f))`: each record zipped with the header. -/
def dictReader (f : CSVFile) : List Row :=
  f.records.map (fun rec => f.header.zip rec)

/-- Message of the `OSError` raised by `open` on an unreadable path
(the interpolated path itself is abstracted away). -/
def fileNotFoundMsg : String :=
  "[Errno 2] No such file or directory"

/-- `calculate_statistics(file_path)` proper: open and parse the file
(an unreadable path raises inside the same `try`), then aggregate. -/
def calculate_statistics (file : Option CSVFile) : StatsResult :=
  match file with
  | none => .error ("Failed to calculate statistics: " ++ fileNotFoundMsg)
  | some f => calcStatsResult (dictReader f)

/-- The success payload of `read_sales_csv`: the `summary` dict.
`date_first`/`date_last` are the `date_range` entries. -/
structure CSVSummary where
  total_rows : Nat
  columns : List String
  sample_data : List Row
  date_first : String
  date_last : String
  deriving Repr, DecidableEq

/-- Result of `read_sales_csv` after its `except` boundary. -/
inductive ReadResult where
  | ok (s : CSVSummary)
  | error (msg : String)
  deriving Repr, DecidableEq

/-- `read_sales_csv(file_path)`: parse the file, reject an empty row list,
otherwise build the summary with the first-5/last-5 preview and the date
range (`'N/A'` when a row has no `Date` column). Every failure is returned
as an error value. -/
def read_sales_csv (file : Option CSVFile) : ReadResult :=
  match file with
  | none => .error ("Failed to read CSV: " ++ fileNotFoundMsg)
  | some f =>
    match dictReader f with
    | [] => .error "CSV file is empty"
    | r0 :: rest =>
      .ok { total_rows := (r0 :: rest).length
          , columns := r0.map Prod.fst
          , sample_data :=
              if (r0 :: rest).length > 10 then
                (r0 :: rest).take 5 ++ (r0 :: rest).drop ((r0 :: rest).length - 5)
              else r0 :: rest
          , date_first := (Row.get r0 "Date").getD "N/A"
          , date_last := (Row.get ((r0 :: rest).getLast?.getD r0) "Date").getD "N/A" }

/-- Whether a `ReadResult` is the success case. -/
def readIsOk : ReadResult → Bool
  | .ok _ => true
  | .error _ => false

/-- The preview rows of a successful `ReadResult`. -/
def readSample : ReadResult → Option (List Row)
  | .ok s => some s.sample_data
  | .error _ => none

/-- Whether a `StatsResult` is the error case. -/
def statsIsError : StatsResult → Bool
  | .ok _ => false
  | .error _ => true

/-- The `region_breakdown` of a successful `StatsResult`. -/
def statsRegionBreakdown : StatsResult → Option (List (String × String))
  | .ok s => some s.region_breakdown
  | .error _ => none

/-- Spec-side reading of one row's revenue: the `Revenue` field parsed as a
decimal number. -/
def revenueOfRow (r : Row) : Option ℚ :=
  (Row.get r "Revenue").bind parseFloat

/-- Spec-side reading of one row's units: the `Units_Sold` field parsed as
an integer. -/
def unitsOfRow (r : Row) : Option ℤ :=
  (Row.get r "Units_Sold").bind parseInt

/-- Spec-side total: the sum over all rows of the row's `Revenue` field
parsed as a decimal number (defined from the spec's wording, to be compared
with the aggregator's accumulated total). -/
def specRevenueSum (rows : List Row) : Option ℚ :=
  (rows.mapM revenueOfRow).map (fun vs => vs.sum)

theorem qAdd_eq (a b : ℚ) : qAdd a b = a + b := by
  have ha : (a.den : ℚ) ≠ 0 := by exact_mod_cast a.den_nz
  have hb : (b.den : ℚ) ≠ 0 := by exact_mod_cast b.den_nz
  rw [qAdd, Rat.mkRat_eq_div]
  conv_rhs => rw [← Rat.num_div_den a, ← Rat.num_div_den b]
  push_cast
  field_simp

theorem pySel_assoc (a b c : String × ℚ) : pySel (pySel a b) c = pySel a (pySel b c) := by
  unfold pySel
  split_ifs <;> first | rfl | (exfalso; linarith)

theorem pyFold_step (l : List (String × ℚ)) : ∀ a b, pyMaxFold (pySel a b) l = pySel a (pyMaxFold b l) := by
  induction l with
  | nil => intro a b; rfl
  | cons c l ih =>
    intro a b
    show pyMaxFold (pySel (pySel a b) c) l = pySel a (pyMaxFold (pySel b c) l)
    rw [pySel_assoc, ih]

theorem pySel_left_le (a b : String × ℚ) : a.2 ≤ (pySel a b).2 := by
  unfold pySel
  split_ifs with h
  · exact le_of_lt h
  · exact le_refl _

theorem pySel_right_le (a b : String × ℚ) : b.2 ≤ (pySel a b).2 := by
  unfold pySel
  split_ifs with h
  · exact le_refl _
  · exact le_of_not_lt h

theorem pyFold_init_le (l : List (String × ℚ)) : ∀ a, a.2 ≤ (pyMaxFold a l).2 := by
  induction l with
  | nil => intro a; exact le_refl _
  | cons b l ih => intro a; exact le_trans (pySel_left_le a b) (ih (pySel a b))

theorem pyFold_mem_le (l : List (String × ℚ)) : ∀ a p, p ∈ l → p.2 ≤ (pyMaxFold a l).2 := by
  induction l with
  | nil => intro a p hp; cases hp
  | cons b l ih =>
    intro a p hp
    cases hp with
    | head => exact le_trans (pySel_right_le a b) (pyFold_init_le l (pySel a b))
    | tail _ h => exact ih (pySel a b) p h

theorem pyFold_split (l : List (String × ℚ)) :
    ∀ a, ∃ pre post, a :: l = pre ++ pyMaxFold a l :: post ∧
      ∀ p ∈ pre, p.2 < (pyMaxFold a l).2 := by
  induction l with
  | nil => intro a; exact ⟨[], [], rfl, by simp⟩
  | cons b l ih =>
    intro a
    by_cases h : a.2 < b.2
    · obtain ⟨pre, post, hsplit, hlt⟩ := ih (pySel a b)
      have hsel : pySel a b = b := by unfold pySel; rw [if_pos h]
      have hfold : pyMaxFold a (b :: l) = pyMaxFold b l := by
        show pyMaxFold (pySel a b) l = _
        rw [hsel]
      rw [hsel] at hsplit hlt
      refine ⟨a :: pre, post, ?_, ?_⟩
      · rw [hfold, List.cons_append, ← hsplit]
      · intro p hp
        rw [hfold]
        rcases List.mem_cons.mp hp with rfl | hp
        · calc p.2 < b.2 := h
            _ ≤ (pyMaxFold b l).2 := pyFold_init_le l b
        · exact hlt p hp
    · have hsel : pySel a b = a := by unfold pySel; rw [if_neg h]
      have hfold : pyMaxFold a (b :: l) = pyMaxFold a l := by
        show pyMaxFold (pySel a b) l = _
        rw [hsel]
      obtain ⟨pre, post, hsplit, hlt⟩ := ih (pySel a b)
      rw [hsel] at hsplit hlt
      rw [hfold]
      cases pre with
      | nil =>
        simp only [List.nil_append] at hsplit
        refine ⟨[], b :: l, ?_, by simp⟩
        rw [List.nil_append]
        rw [List.cons.injEq] at hsplit ⊢
        exact ⟨hsplit.1, rfl⟩
      | cons p0 pre2 =>
        rw [List.cons_append, List.cons.injEq] at hsplit
        obtain ⟨he, hl⟩ := hsplit
        refine ⟨a :: b :: pre2, post, ?_, ?_⟩
        · rw [List.cons_append, List.cons_append, ← hl]
        · intro p hp
          have hpa : a.2 < (pyMaxFold a l).2 := by
            have hp0 := hlt p0 (List.mem_cons_self p0 pre2)
            rwa [← he] at hp0
          rcases List.mem_cons.mp hp with rfl | hp
          · exact hpa
          · rcases List.mem_cons.mp hp with rfl | hp
            · exact lt_of_le_of_lt (le_of_not_lt h) hpa
            · exact hlt p (List.mem_cons_of_mem p0 hp)

theorem pyMax_ok_all {l : List (String × ℚ)} {t : String × ℚ} (h : pyMax l = .ok t) :
    ∀ p ∈ l, p.2 ≤ t.2 := by
  cases l with
  | nil => cases h
  | cons x xs =>
    have ht : t = pyMaxFold x xs := by
      unfold pyMax at h
      exact (Except.ok.injEq _ _ ▸ h : _ = t).symm
    subst ht
    intro p hp
    rcases List.mem_cons.mp hp with rfl | hp
    · exact pyFold_init_le xs p
    · exact pyFold_mem_le xs x p hp

theorem pyMax_ok_first {l : List (String × ℚ)} {t : String × ℚ} (h : pyMax l = .ok t) :
    l.find? (fun p => decide (p.2 = t.2)) = some t := by
  cases l with
  | nil => cases h
  | cons x xs =>
    have ht : t = pyMaxFold x xs := by
      unfold pyMax at h
      exact (Except.ok.injEq _ _ ▸ h : _ = t).symm
    subst ht
    obtain ⟨pre, post, hsplit, hlt⟩ := pyFold_split xs x
    rw [hsplit, List.find?_append]
    have hpre : pre.find? (fun p => decide (p.2 = (pyMaxFold x xs).2)) = none := by
      rw [List.find?_eq_none]
      intro p hp
      simp only [decide_eq_true_eq]
      exact ne_of_lt (hlt p hp)
    rw [hpre]
    simp [List.find?_cons]

theorem sortDesc_cons_head (xs : List (String × ℚ)) :
    ∀ x, (sortDesc (x :: xs)).head? = some (pyMaxFold x xs) := by
  induction xs with
  | nil => intro x; rfl
  | cons y ys ih =>
    intro x
    show (insertDesc x (sortDesc (y :: ys))).head? = _
    obtain ⟨t, ht⟩ : ∃ t, sortDesc (y :: ys) = pyMaxFold y ys :: t := by
      have hh := ih y
      cases hs : sortDesc (y :: ys) with
      | nil => rw [hs] at hh; cases hh
      | cons m t =>
        rw [hs] at hh
        simp only [List.head?_cons, Option.some.injEq] at hh
        exact ⟨t, by rw [hh]⟩
    rw [ht]
    have hstep : pyMaxFold x (y :: ys) = pySel x (pyMaxFold y ys) := by
      show pyMaxFold (pySel x y) ys = _
      rw [pyFold_step]
    rw [hstep]
    show (if (pyMaxFold y ys).2 ≤ x.2 then x :: pyMaxFold y ys :: t
          else pyMaxFold y ys :: insertDesc x t).head? = some (pySel x (pyMaxFold y ys))
    unfold pySel
    by_cases hc : (pyMaxFold y ys).2 ≤ x.2
    · rw [if_pos hc, if_neg (not_lt.mpr hc), List.head?_cons]
    · rw [if_neg hc, if_pos (lt_of_not_le hc), List.head?_cons]

/-- The ordering of a descending-by-value breakdown: the later entry's
value is less than or equal to the earlier one's. -/
def geQ (a b : String × ℚ) : Prop := b.2 ≤ a.2

theorem chain'_insertDesc (x : String × ℚ) :
    ∀ l : List (String × ℚ), l.Chain' geQ → (insertDesc x l).Chain' geQ := by
  intro l
  induction l with
  | nil => intro _; exact List.chain'_singleton x
  | cons y l ih =>
    intro h
    show (if y.2 ≤ x.2 then x :: y :: l else y :: insertDesc x l).Chain' geQ
    split_ifs with h1
    · exact List.chain'_cons.mpr ⟨h1, h⟩
    · apply List.chain'_cons'.mpr
      refine ⟨?_, ih (List.Chain'.tail h)⟩
      intro b hb
      cases l with
      | nil =>
        simp only [insertDesc, List.head?_cons, Option.mem_def, Option.some.injEq] at hb
        subst hb
        exact le_of_not_le h1
      | cons z l2 =>
        rw [show insertDesc x (z :: l2) =
            if z.2 ≤ x.2 then x :: z :: l2 else z :: insertDesc x l2 from rfl] at hb
        split_ifs at hb with h3
        · simp only [List.head?_cons, Option.mem_def, Option.some.injEq] at hb
          subst hb
          exact le_of_not_le h1
        · simp only [List.head?_cons, Option.mem_def, Option.some.injEq] at hb
          subst hb
          exact (List.chain'_cons.mp h).1

theorem sortDesc_chain' : ∀ l : List (String × ℚ), (sortDesc l).Chain' geQ := by
  intro l
  induction l with
  | nil => exact List.chain'_nil
  | cons x xs ih => exact chain'_insertDesc x (sortDesc xs) ih

theorem getItem_ok {r : Row} {k s : String} (h : getItem r k = .ok s) :
    Row.get r k = some s := by
  unfold getItem at h
  split at h
  · next v hv => rw [hv]; injection h with h; rw [h]
  · cases h

theorem pyFloat_ok {s : String} {v : ℚ} (h : pyFloat s = .ok v) :
    parseFloat s = some v := by
  unfold pyFloat at h
  split at h
  · next q hq => rw [hq]; injection h with h; rw [h]
  · cases h

theorem pyInt_ok {s : String} {v : ℤ} (h : pyInt s = .ok v) :
    parseInt s = some v := by
  unfold pyInt at h
  split at h
  · next n hn => rw [hn]; injection h with h; rw [h]
  · cases h

theorem sumFloats_spec {rows : List Row} {acc t : ℚ}
    (h : sumFloatsFrom rows acc = .ok t) :
    ∃ vs : List ℚ, rows.mapM revenueOfRow = some vs ∧ t = acc + vs.sum := by
  induction rows generalizing acc with
  | nil =>
    refine ⟨[], rfl, ?_⟩
    unfold sumFloatsFrom at h
    injection h with h
    rw [← h]
    simp
  | cons r rest ih =>
    unfold sumFloatsFrom at h
    split at h
    · cases h
    next s0 hs0 =>
      split at h
      · cases h
      next v hv =>
        obtain ⟨vs, hmap, hsum⟩ := ih h
        have hrev : revenueOfRow r = some v := by
          unfold revenueOfRow
          rw [getItem_ok hs0, Option.some_bind, pyFloat_ok hv]
        refine ⟨v :: vs, ?_, ?_⟩
        · rw [List.mapM_cons, hrev, hmap]
          rfl
        · rw [hsum, qAdd_eq, List.sum_cons]
          ring

theorem sumFloats_ok_rows {rows : List Row} {acc t : ℚ}
    (h : sumFloatsFrom rows acc = .ok t) :
    ∀ r ∈ rows, (revenueOfRow r).isSome := by
  induction rows generalizing acc with
  | nil => intro r hr; cases hr
  | cons r0 rest ih =>
    intro r hr
    unfold sumFloatsFrom at h
    split at h
    · cases h
    next s0 hs0 =>
      split at h
      · cases h
      next v hv =>
        rcases List.mem_cons.mp hr with rfl | hr
        · unfold revenueOfRow
          rw [getItem_ok hs0, Option.some_bind, pyFloat_ok hv]
          rfl
        · exact ih h r hr

theorem sumInts_ok_rows {rows : List Row} {acc : ℤ} {t : ℤ}
    (h : sumIntsFrom rows acc = .ok t) :
    ∀ r ∈ rows, (unitsOfRow r).isSome := by
  induction rows generalizing acc with
  | nil => intro r hr; cases hr
  | cons r0 rest ih =>
    intro r hr
    unfold sumIntsFrom at h
    split at h
    · cases h
    next s0 hs0 =>
      split at h
      · cases h
      next v hv =>
        rcases List.mem_cons.mp hr with rfl | hr
        · unfold unitsOfRow
          rw [getItem_ok hs0, Option.some_bind, pyInt_ok hv]
          rfl
        · exact ih h r hr

theorem groupFrom_ok_rows {gkey : String} {rows : List Row}
    {m g : List (String × ℚ)} (h : groupFrom gkey rows m = .ok g) :
    ∀ r ∈ rows, (Row.get r gkey).isSome := by
  induction rows generalizing m with
  | nil => intro r hr; cases hr
  | cons r0 rest ih =>
    intro r hr
    unfold groupFrom at h
    split at h
    · cases h
    next g0 hg0 =>
      split at h
      · cases h
      next s0 hs0 =>
        split at h
        · cases h
        next v hv =>
          rcases List.mem_cons.mp hr with rfl | hr
          · rw [getItem_ok hg0]; rfl
          · exact ih h r hr

theorem calcStats_ok_elim {rows : List Row} {s : Stats} (h : calcStats rows = .ok s) :
    ∃ (total : ℚ) (units : ℤ) (gR gP gS : List (String × ℚ))
      (tR tP tS : String × ℚ) (avg : ℚ),
      sumFloatsFrom rows 0 = .ok total ∧
      sumIntsFrom rows 0 = .ok units ∧
      groupFrom "Region" rows [] = .ok gR ∧
      groupFrom "Product" rows [] = .ok gP ∧
      groupFrom "Salesperson" rows [] = .ok gS ∧
      pyMax gR = .ok tR ∧ pyMax gP = .ok tP ∧ pyMax gS = .ok tS ∧
      pyDiv total rows.length = .ok avg ∧
      s = mkStatsRecord total units rows.length avg tR tP tS gR gP gS := by
  unfold calcStats at h
  split at h
  · cases h
  next total h1 =>
  split at h
  · cases h
  next units h2 =>
  split at h
  · cases h
  next gR h3 =>
  split at h
  · cases h
  next gP h4 =>
  split at h
  · cases h
  next gS h5 =>
  split at h
  · cases h
  next tR h6 =>
  split at h
  · cases h
  next tP h7 =>
  split at h
  · cases h
  next tS h8 =>
  split at h
  · cases h
  next avg h9 =>
  injection h with h
  exact ⟨total, units, gR, gP, gS, tR, tP, tS, avg,
    h1, h2, h3, h4, h5, h6, h7, h8, h9, h.symm⟩

/-- Whether `needle` is an initial segment of `hay`. -/
def leadsWith : List Char → List Char → Bool
  | [], _ => true
  | _ :: _, [] => false
  | c :: cs, d :: ds => c == d && leadsWith cs ds

/-- Whether `needle` occurs contiguously inside `hay`. -/
def containsSub (needle : List Char) : List Char → Bool
  | [] => leadsWith needle []
  | d :: ds => leadsWith needle (d :: ds) || containsSub needle ds

/-- The spec's worked example, completed with values for the other three
required columns so that the aggregation can succeed. -/
def exRow1 : Row :=
  [("Region", "East"), ("Product", "A"), ("Salesperson", "S1"),
   ("Revenue", "100"), ("Units_Sold", "1")]

/-- Second example row. -/
def exRow2 : Row :=
  [("Region", "West"), ("Product", "B"), ("Salesperson", "S2"),
   ("Revenue", "50"), ("Units_Sold", "2")]

/-- Third example row. -/
def exRow3 : Row :=
  [("Region", "East"), ("Product", "A"), ("Salesperson", "S1"),
   ("Revenue", "30"), ("Units_Sold", "3")]

/-- The completed example dataset. -/
def exRows : List Row := [exRow1, exRow2, exRow3]

/-- The statistics report that `calcStats` computes on `exRows`. -/
def exStats : Stats :=
  { total_revenue := "$180.00"
  , total_units_sold := 6
  , average_revenue_per_transaction := "$60.00"
  , number_of_transactions := 3
  , top_region := ("East", "$130.00")
  , top_product := ("A", "$130.00")
  , top_salesperson := ("S1", "$130.00")
  , region_breakdown := [("East", "$130.00"), ("West", "$50.00")]
  , product_breakdown := [("A", "$130.00"), ("B", "$50.00")]
  , salesperson_breakdown := [("S1", "$130.00"), ("S2", "$50.00")] }

/-- The spec's worked-example rows exactly as written there: only a
`Region` and a `Revenue` column. -/
def bareRows : List Row :=
  [[("Region", "East"), ("Revenue", "100")],
   [("Region", "West"), ("Revenue", "50")],
   [("Region", "East"), ("Revenue", "30")]]

/-- Two regions with tied revenue totals. -/
def tieRows : List Row :=
  [[("Region", "A"), ("Product", "P"), ("Salesperson", "S"),
    ("Revenue", "100"), ("Units_Sold", "1")],
   [("Region", "B"), ("Product", "P"), ("Salesperson", "S"),
    ("Revenue", "100"), ("Units_Sold", "1")]]

/-- A readable file with one data row and none of the aggregation columns. -/
def demoNoRevenue : CSVFile :=
  ⟨["Date", "Foo"], [["2024-01-01", "x"]]⟩

/-- A file with 12 data rows. -/
def file12 : CSVFile :=
  ⟨["Date"], [["1"], ["2"], ["3"], ["4"], ["5"], ["6"], ["7"], ["8"], ["9"],
    ["10"], ["11"], ["12"]]⟩

/-- A file with 8 data rows. -/
def file8 : CSVFile :=
  ⟨["Date"], [["1"], ["2"], ["3"], ["4"], ["5"], ["6"], ["7"], ["8"]]⟩

theorem pyMax_ok_spec {g : List (String × ℚ)} {t : String × ℚ} (h : pyMax g = .ok t) :
    g.all (fun p => decide (p.2 ≤ t.2)) = true ∧
    g.find? (fun p => decide (p.2 = t.2)) = some t := by
  refine ⟨?_, pyMax_ok_first h⟩
  rw [List.all_eq_true]
  intro p hp
  rw [decide_eq_true_eq]
  exact pyMax_ok_all h p hp

/-- C1: for any dataset whose every row's `Revenue` field parses as a
decimal number (so that the spec-side sum `specRevenueSum` exists), a
successful `calculate_statistics` reports as `total_revenue` exactly the
`'$'`-prefixed, comma-separated, 2-decimal rendering of that sum. -/
theorem calcStats_total_revenue (rows : List Row) (t : ℚ) (s : Stats)
    (h1 : specRevenueSum rows = some t) (h2 : calcStats rows = .ok s) :
    s.total_revenue = "$" ++ fmtFloat2 t := by
  obtain ⟨total, units, gR, gP, gS, tR, tP, tS, avg, hsum, -, -, -, -, -, -, -, -, hs⟩ :=
    calcStats_ok_elim h2
  obtain ⟨vs, hmap, hval⟩ := sumFloats_spec hsum
  have ht : t = vs.sum := by
    unfold specRevenueSum at h1
    rw [hmap] at h1
    simp only [Option.map_some', Option.some.injEq] at h1
    exact h1.symm
  have htot : total = t := by
    rw [hval, ht, zero_add]
  rw [hs]
  show fmtUSD total = "$" ++ fmtFloat2 t
  rw [htot, fmtUSD]

/-- Witness for C1: at the completed example dataset, the reported total
is the formatted sum 180. -/
theorem calcStats_total_revenue_witness :
    exStats.total_revenue = "$" ++ fmtFloat2 180 :=
  calcStats_total_revenue exRows 180 exStats
    (by show some ((100 : ℚ) + (50 + (30 + 0))) = some 180; norm_num) rfl

/-- C2: in a successful report, each of the three top performers carries
the name and formatted revenue of a group whose summed revenue is greater
than or equal to every entry of its grouping, and it is the first group
(in first-seen row order, the grouping dict's insertion order) attaining
that maximum. -/
theorem calcStats_top_performers (rows : List Row) (s : Stats)
    (gR gP gS : List (String × ℚ)) (tR tP tS : String × ℚ)
    (hs : calcStats rows = .ok s)
    (hgR : groupFrom "Region" rows [] = .ok gR) (htR : pyMax gR = .ok tR)
    (hgP : groupFrom "Product" rows [] = .ok gP) (htP : pyMax gP = .ok tP)
    (hgS : groupFrom "Salesperson" rows [] = .ok gS) (htS : pyMax gS = .ok tS) :
    (s.top_region = (tR.1, fmtUSD tR.2) ∧
      gR.all (fun p => decide (p.2 ≤ tR.2)) = true ∧
      gR.find? (fun p => decide (p.2 = tR.2)) = some tR) ∧
    (s.top_product = (tP.1, fmtUSD tP.2) ∧
      gP.all (fun p => decide (p.2 ≤ tP.2)) = true ∧
      gP.find? (fun p => decide (p.2 = tP.2)) = some tP) ∧
    (s.top_salesperson = (tS.1, fmtUSD tS.2) ∧
      gS.all (fun p => decide (p.2 ≤ tS.2)) = true ∧
      gS.find? (fun p => decide (p.2 = tS.2)) = some tS) := by
  obtain ⟨total, units, gR', gP', gS', tR', tP', tS', avg,
    h1, h2, h3, h4, h5, h6, h7, h8, h9, hrec⟩ := calcStats_ok_elim hs
  rw [hgR] at h3
  injection h3 with h3
  subst h3
  rw [hgP] at h4
  injection h4 with h4
  subst h4
  rw [hgS] at h5
  injection h5 with h5
  subst h5
  rw [htR] at h6
  injection h6 with h6
  subst h6
  rw [htP] at h7
  injection h7 with h7
  subst h7
  rw [htS] at h8
  injection h8 with h8
  subst h8
  obtain ⟨haR, hfR⟩ := pyMax_ok_spec htR
  obtain ⟨haP, hfP⟩ := pyMax_ok_spec htP
  obtain ⟨haS, hfS⟩ := pyMax_ok_spec htS
  rw [hrec]
  exact ⟨⟨rfl, haR, hfR⟩, ⟨rfl, haP, hfP⟩, ⟨rfl, haS, hfS⟩⟩

/-- Witness for C2: at the example dataset the reported top region is
East with the formatted 130 revenue. -/
theorem calcStats_top_performers_witness :
    exStats.top_region = ("East", fmtUSD 130) :=
  (calcStats_top_performers exRows exStats
    [("East", 130), ("West", 50)] [("A", 130), ("B", 50)] [("S1", 130), ("S2", 50)]
    ("East", 130) ("A", 130) ("S1", 130)
    rfl rfl rfl rfl rfl rfl rfl).1.1

/-- C3 counterexample: with two regions tied at 100, the successful report
lists two consecutive region-breakdown entries with equal aggregated
value, so the strictly-descending reading of the claim fails. -/
theorem breakdown_strict_descent_fails :
    groupFrom "Region" tieRows [] = .ok [("A", 100), ("B", 100)] ∧
    statsRegionBreakdown (calcStatsResult tieRows) =
      some [("A", "$100.00"), ("B", "$100.00")] ∧
    ¬ (sortDesc [(("A" : String), (100 : ℚ)), ("B", 100)]).Chain'
        (fun a b => b.2 < a.2) := by
  refine ⟨rfl, rfl, ?_⟩
  intro h
  have h1 : (100 : ℚ) < 100 :=
    (List.chain'_cons.mp (show List.Chain' (fun a b : String × ℚ => b.2 < a.2)
      [("A", 100), ("B", 100)] from h)).1
  exact absurd h1 (lt_irrefl _)

/-- C3 amended: in every successful report, each of the three breakdowns
is the grouping sorted descending by aggregated value in the weak sense:
every later entry's value is less than or equal to the earlier one's
(consecutive entries are equal exactly when groups tie). -/
theorem calcStats_breakdowns_sorted (rows : List Row) (s : Stats)
    (gR gP gS : List (String × ℚ))
    (hs : calcStats rows = .ok s)
    (hgR : groupFrom "Region" rows [] = .ok gR)
    (hgP : groupFrom "Product" rows [] = .ok gP)
    (hgS : groupFrom "Salesperson" rows [] = .ok gS) :
    (s.region_breakdown = (sortDesc gR).map fmtPair ∧ (sortDesc gR).Chain' geQ) ∧
    (s.product_breakdown = (sortDesc gP).map fmtPair ∧ (sortDesc gP).Chain' geQ) ∧
    (s.salesperson_breakdown = (sortDesc gS).map fmtPair ∧ (sortDesc gS).Chain' geQ) := by
  obtain ⟨total, units, gR', gP', gS', tR', tP', tS', avg,
    h1, h2, h3, h4, h5, h6, h7, h8, h9, hrec⟩ := calcStats_ok_elim hs
  rw [hgR] at h3
  injection h3 with h3
  subst h3
  rw [hgP] at h4
  injection h4 with h4
  subst h4
  rw [hgS] at h5
  injection h5 with h5
  subst h5
  rw [hrec]
  exact ⟨⟨rfl, sortDesc_chain' gR⟩, ⟨rfl, sortDesc_chain' gP⟩, ⟨rfl, sortDesc_chain' gS⟩⟩

/-- Witness for C3's amended claim at the example dataset. -/
theorem calcStats_breakdowns_sorted_witness :
    exStats.region_breakdown =
      (sortDesc [(("East" : String), (130 : ℚ)), ("West", 50)]).map fmtPair :=
  (calcStats_breakdowns_sorted exRows exStats
    [("East", 130), ("West", 50)] [("A", 130), ("B", 50)] [("S1", 130), ("S2", 50)]
    rfl rfl rfl rfl).1.1

/-- C4 counterexample: on zero data rows the computation does not fail
with the divide-by-zero-class error: it fails earlier, at `max` over the
empty region grouping, with a `ValueError`. -/
theorem calcStats_empty_error_not_zerodiv :
    calcStats [] = .error (.valueError "max() arg is an empty sequence") ∧
    PyErr.valueError "max() arg is an empty sequence" ≠ PyErr.zeroDivisionError := by
  exact ⟨rfl, by decide⟩

/-- C4 amended: on zero data rows the computation fails before the average
is reached — `max()` over the empty region grouping raises a
`ValueError`-class error — and that exception is converted into a
structured error value rather than an uncaught fault. -/
theorem calcStats_empty_structured_error :
    calcStats [] = .error (.valueError "max() arg is an empty sequence") ∧
    calcStatsResult [] =
      .error "Failed to calculate statistics: max() arg is an empty sequence" :=
  ⟨rfl, rfl⟩

/-- C5: for every readable file with a header and zero data rows,
`read_sales_csv` returns the structured error value whose message is
`"CSV file is empty"` (which contains the word `"empty"`) and no summary
payload; the error is a returned value of the total function. -/
theorem read_sales_csv_empty_file (header : List String) :
    read_sales_csv (some ⟨header, []⟩) = .error "CSV file is empty" ∧
    containsSub "empty".data "CSV file is empty".data = true :=
  ⟨rfl, rfl⟩

/-- C6: whenever some row lacks one of the five required columns or holds
an unparseable value in `Revenue` or `Units_Sold`, `calculate_statistics`
returns the structured error value (so no partial aggregation result is
produced, and no fault escapes the boundary: the function is total). -/
theorem calcStats_missing_column_error (rows : List Row)
    (h : rows.any (fun r =>
        !(revenueOfRow r).isSome || !(unitsOfRow r).isSome ||
        !(Row.get r "Region").isSome || !(Row.get r "Product").isSome ||
        !(Row.get r "Salesperson").isSome) = true) :
    statsIsError (calcStatsResult rows) = true := by
  cases hc : calcStats rows with
  | error e =>
    unfold calcStatsResult
    rw [hc]
    rfl
  | ok s =>
    exfalso
    obtain ⟨r, hr, hbad⟩ := List.any_eq_true.mp h
    obtain ⟨total, units, gR, gP, gS, tR, tP, tS, avg,
      h1, h2, h3, h4, h5, -, -, -, -, -⟩ := calcStats_ok_elim hc
    have hR := sumFloats_ok_rows h1 r hr
    have hU := sumInts_ok_rows h2 r hr
    have hReg := groupFrom_ok_rows h3 r hr
    have hPro := groupFrom_ok_rows h4 r hr
    have hSal := groupFrom_ok_rows h5 r hr
    rw [hR, hU, hReg, hPro, hSal] at hbad
    simp at hbad

/-- Witness for C6: the bare two-column example rows lack `Units_Sold`
(among others), and the aggregator returns an error value on them. -/
theorem calcStats_missing_column_error_witness :
    statsIsError (calcStatsResult bareRows) = true :=
  calcStats_missing_column_error bareRows rfl

/-- Sample formula of a successful load: first 5 plus last 5 rows when
there are more than 10 rows, all rows otherwise. -/
theorem readSample_formula (f : CSVFile) (h : dictReader f ≠ []) :
    readSample (read_sales_csv (some f)) =
      some (if (dictReader f).length > 10 then
          (dictReader f).take 5 ++ (dictReader f).drop ((dictReader f).length - 5)
        else dictReader f) := by
  unfold read_sales_csv
  split
  · next hnone => cases hnone
  · next g hg =>
    injection hg with hg
    subst hg
    split
    · next hnil => exact absurd hnil h
    · next r0 rest hcons =>
      rw [hcons]
      rfl

/-- C7: the loader preview of a 12-row dataset is exactly rows 1-5
followed by rows 8-12, an 8-row dataset is previewed whole, and in
general the truncation applies exactly when there are more than 10
rows. -/
theorem read_sales_csv_preview :
    (∀ f : CSVFile, (dictReader f).length = 12 →
      readSample (read_sales_csv (some f)) =
        some ((dictReader f).take 5 ++ (dictReader f).drop 7)) ∧
    (∀ f : CSVFile, (dictReader f).length = 8 →
      readSample (read_sales_csv (some f)) = some (dictReader f)) ∧
    (∀ f : CSVFile, dictReader f ≠ [] →
      readSample (read_sales_csv (some f)) =
        some (if (dictReader f).length > 10 then
            (dictReader f).take 5 ++ (dictReader f).drop ((dictReader f).length - 5)
          else dictReader f)) := by
  refine ⟨?_, ?_, fun f h => readSample_formula f h⟩
  · intro f h12
    have hne : dictReader f ≠ [] := by
      intro hnil
      rw [hnil] at h12
      cases h12
    rw [readSample_formula f hne, h12]
    norm_num
  · intro f h8
    have hne : dictReader f ≠ [] := by
      intro hnil
      rw [hnil] at h8
      cases h8
    rw [readSample_formula f hne, h8]
    norm_num

/-- Witness for C7 at concrete 12-row and 8-row files. -/
theorem read_sales_csv_preview_witness :
    readSample (read_sales_csv (some file12)) =
      some ((dictReader file12).take 5 ++ (dictReader file12).drop 7) ∧
    readSample (read_sales_csv (some file8)) = some (dictReader file8) :=
  ⟨read_sales_csv_preview.1 file12 rfl, read_sales_csv_preview.2.1 file8 rfl⟩

/-- C8 counterexample: on the spec example's rows taken literally (only
`Region` and `Revenue` columns), the aggregator raises `KeyError` on
`Units_Sold` and returns an error value, not a success report. -/
theorem calcStats_bare_example_rows_error :
    calcStats bareRows = .error (.keyError "Units_Sold") ∧
    statsIsError (calcStatsResult bareRows) = true :=
  ⟨rfl, rfl⟩

/-- C8 amended: on the example rows completed with the remaining required
columns, the report succeeds with region breakdown East 130.00 / West
50.00, top region East at 130.00 and total revenue 180.00. -/
theorem calcStats_example_dataset :
    calcStats exRows = .ok exStats ∧
    exStats.region_breakdown = [("East", "$130.00"), ("West", "$50.00")] ∧
    exStats.top_region = ("East", "$130.00") ∧
    exStats.total_revenue = "$180.00" :=
  ⟨rfl, rfl, rfl, rfl⟩

/-- C9: the loader performs no schema validation: it succeeds exactly when
the file is readable and has at least one data row (whatever the columns),
it errors on an empty row list and on an unreadable path, and a file can
load fine while the aggregator errors on it. -/
theorem read_sales_csv_no_schema_validation :
    (∀ f : CSVFile, readIsOk (read_sales_csv (some f)) = !f.records.isEmpty) ∧
    read_sales_csv none = .error ("Failed to read CSV: " ++ fileNotFoundMsg) ∧
    readIsOk (read_sales_csv (some demoNoRevenue)) = true ∧
    statsIsError (calculate_statistics (some demoNoRevenue)) = true := by
  refine ⟨?_, rfl, rfl, rfl⟩
  intro f
  cases hr : f.records with
  | nil => simp [read_sales_csv, dictReader, hr, readIsOk]
  | cons r rs => simp [read_sales_csv, dictReader, hr, readIsOk]

/-- The head of the dollar-formatted descending breakdown built from a
grouping is the formatted `max` entry, which is also what a key lookup of
that entry's name returns. -/
theorem top_breakdown_helper {g : List (String × ℚ)} {t : String × ℚ}
    (h : pyMax g = .ok t) :
    ((sortDesc g).map fmtPair).head? = some (fmtPair t) ∧
    ((sortDesc g).map fmtPair).lookup (fmtPair t).1 = some (fmtPair t).2 := by
  cases g with
  | nil => cases h
  | cons x xs =>
    have ht : t = pyMaxFold x xs := by
      unfold pyMax at h
      injection h with h
      exact h.symm
    have hhead : (sortDesc (x :: xs)).head? = some t := by
      rw [ht]
      exact sortDesc_cons_head xs x
    obtain ⟨rest, hrest⟩ : ∃ rest, sortDesc (x :: xs) = t :: rest := by
      cases hs : sortDesc (x :: xs) with
      | nil => rw [hs] at hhead; cases hhead
      | cons m rest =>
        rw [hs] at hhead
        simp only [List.head?_cons, Option.some.injEq] at hhead
        exact ⟨rest, by rw [hhead]⟩
    rw [hrest, List.map_cons]
    refine ⟨rfl, ?_⟩
    simp [List.lookup, fmtPair]

/-- C10: in every successful report, the top region is the first entry of
the region breakdown, and the value the breakdown associates with that
name is the top region's formatted revenue; likewise for product and
salesperson. -/
theorem calcStats_top_matches_breakdown (rows : List Row) (s : Stats)
    (h : calcStats rows = .ok s) :
    (s.region_breakdown.head? = some s.top_region ∧
      s.region_breakdown.lookup s.top_region.1 = some s.top_region.2) ∧
    (s.product_breakdown.head? = some s.top_product ∧
      s.product_breakdown.lookup s.top_product.1 = some s.top_product.2) ∧
    (s.salesperson_breakdown.head? = some s.top_salesperson ∧
      s.salesperson_breakdown.lookup s.top_salesperson.1 = some s.top_salesperson.2) := by
  obtain ⟨total, units, gR, gP, gS, tR, tP, tS, avg,
    h1, h2, h3, h4, h5, h6, h7, h8, h9, hrec⟩ := calcStats_ok_elim h
  rw [hrec]
  exact ⟨top_breakdown_helper h6, top_breakdown_helper h7, top_breakdown_helper h8⟩

/-- Witness for C10 at the example dataset: the breakdown's first entry is
the reported top region. -/
theorem calcStats_top_matches_breakdown_witness :
    exStats.region_breakdown.head? = some exStats.top_region :=
  (calcStats_top_matches_breakdown exRows exStats rfl).1.1

/-- Witness for C5 at a concrete header. -/
theorem read_sales_csv_empty_file_witness :
    read_sales_csv (some ⟨["Date"], []⟩) = .error "CSV file is empty" :=
  (read_sales_csv_empty_file ["Date"]).1

/-- Witness for C9 at a concrete file. -/
theorem read_sales_csv_no_schema_validation_witness :
    readIsOk (read_sales_csv (some file8)) = !file8.records.isEmpty :=
  read_sales_csv_no_schema_validation.1 file8
